import Mathlib

/-!
Shallow embedding of the checkout flow controller found in
`src/checkOUT1.tsx` of the hanshitha-frontend repository.

The component holds a ten-field form state, validates the nine required
fields, computes a pricing breakdown from the live cart subtotal, renders
an order summary, and on submission issues one HTTP POST to obtain a
payment link, then navigates to it.  Pure pieces of the component are
translated to Lean functions; the submission handler is modelled as the
trace of side-effecting actions it performs; the reactive empty-cart
guard is modelled as a small event-driven transition system.

Monetary amounts are modelled as rationals.
-/

namespace CheckoutSpec

/-- The ten fields of the `formData` state object in `checkOUT1.tsx`,
all initialised to the empty string on mount. -/
structure FormData where
  email : String
  firstName : String
  lastName : String
  phone : String
  address1 : String
  address2 : String
  city : String
  state : String
  postalCode : String
  country : String
deriving DecidableEq, Repr

/-- The names of the form fields, as used for the computed key in
`handleInputChange` and in the required-field lists. -/
inductive FieldName where
  | email | firstName | lastName | phone
  | address1 | address2 | city | state | postalCode | country
deriving DecidableEq, Repr

/-- Field lookup: `formData[field]`. -/
def FormData.get (f : FormData) : FieldName → String
  | .email => f.email
  | .firstName => f.firstName
  | .lastName => f.lastName
  | .phone => f.phone
  | .address1 => f.address1
  | .address2 => f.address2
  | .city => f.city
  | .state => f.state
  | .postalCode => f.postalCode
  | .country => f.country

/-- The raw JavaScript identifier of each field. -/
def FieldName.ident : FieldName → String
  | .email => "email"
  | .firstName => "firstName"
  | .lastName => "lastName"
  | .phone => "phone"
  | .address1 => "address1"
  | .address2 => "address2"
  | .city => "city"
  | .state => "state"
  | .postalCode => "postalCode"
  | .country => "country"

/-- The `requiredFields` array appearing (identically) in both
`validateForm` and the `isFormValid` memo: every field except
`address2`, in source order. -/
def requiredFields : List FieldName :=
  [.email, .firstName, .lastName, .phone,
   .address1, .city, .state, .postalCode, .country]

/-- JavaScript `String.prototype.trim()`: strip leading and trailing
whitespace, written on the character list so that it computes by
structural recursion. -/
def jsTrim (s : String) : String :=
  String.mk (((s.data.dropWhile Char.isWhitespace).reverse.dropWhile
    Char.isWhitespace).reverse)

/-- JavaScript `String.prototype.toLowerCase()` on the character
list. -/
def jsToLower (s : String) : String :=
  String.mk (s.data.map Char.toLower)

/-- The regex replacement `field.replace(/([A-Z])/g, " $1")`:
insert a space before every upper-case letter. -/
def insertSpaces (s : String) : String :=
  String.mk (s.data.foldr (fun c acc => if c.isUpper then ' ' :: c :: acc else c :: acc) [])

/-- Humanization of a field identifier as done in the `validateForm`
toast: space insertion before capitals followed by `.toLowerCase()`. -/
def humanize (s : String) : String :=
  jsToLower (insertSpaces s)

/-- The toast description produced by `validateForm` for an empty
required field. -/
def fieldErrorMsg (fld : FieldName) : String :=
  "Please fill in the " ++ humanize fld.ident ++ " field."

/-- The first required field (in source order) whose trimmed value is
empty: the field at which the `for` loop of `validateForm` returns. -/
def firstEmptyField (f : FormData) : Option FieldName :=
  requiredFields.find? (fun fld => jsTrim (f.get fld) == "")

/-- Result of `validateForm`: the returned boolean together with the
description of the destructive toast it raised, if any. -/
structure ValidationResult where
  ok : Bool
  toastMsg : Option String
deriving DecidableEq, Repr

/-- `validateForm` from `checkOUT1.tsx`: iterates the required fields;
for the first one whose trimmed value is empty it raises one toast
naming that field and returns `false`; otherwise returns `true`. -/
def validateForm (f : FormData) : ValidationResult :=
  match firstEmptyField f with
  | some fld => ⟨false, some (fieldErrorMsg fld)⟩
  | none => ⟨true, none⟩

/-- The `isFormValid` memo from `checkOUT1.tsx`:
`requiredFields.every(field => formData[field].trim() !== "")`. -/
def isFormValid (f : FormData) : Bool :=
  requiredFields.all (fun fld => !(jsTrim (f.get fld) == ""))

/-- `handleInputChange`: spread of the previous state with the single
computed key `[name]` replaced by the new value. -/
def setField (f : FormData) (n : FieldName) (v : String) : FormData :=
  match n with
  | .email => { f with email := v }
  | .firstName => { f with firstName := v }
  | .lastName => { f with lastName := v }
  | .phone => { f with phone := v }
  | .address1 => { f with address1 := v }
  | .address2 => { f with address2 := v }
  | .city => { f with city := v }
  | .state => { f with state := v }
  | .postalCode => { f with postalCode := v }
  | .country => { f with country := v }

/-- A cart line item as consumed by the checkout (external data model,
owned by the cart context): identifier, display name, image reference,
unit price, quantity. -/
structure CartItem where
  id : String
  name : String
  image : String
  price : ℚ
  quantity : ℕ
deriving DecidableEq, Repr

/-- The `{shipping, tax, total}` record destructured from
`calculatePricing(subtotal)` in `checkOUT1.tsx`. -/
structure Pricing where
  shipping : ℚ
  tax : ℚ
  total : ℚ
deriving DecidableEq, Repr

/-- Modelled from the spec: `calculatePricing` is imported from
`../utils/pricing`, a module not present among the provided sources.
Per the spec (section 4.2) it is a pure, deterministic function of the
subtotal alone, producing `{shipping, tax, total}` with
`total = subtotal + shipping + tax`; the exact shipping and tax
policies are owned by that external function and are abstracted here as
rule parameters. -/
def calculatePricing (shippingRule taxRule : ℚ → ℚ) (subtotal : ℚ) : Pricing :=
  let shipping := shippingRule subtotal
  let tax := taxRule subtotal
  { shipping := shipping, tax := tax, total := subtotal + shipping + tax }

/-- The shipping summary row value:
`shipping === 0 ? 'Free' : formatPrice(shipping)`. -/
def shippingRowValue (formatPrice : ℚ → String) (shipping : ℚ) : String :=
  if shipping = 0 then "Free" else formatPrice shipping

/-- The `disabled` prop of the TruckButton:
`!isFormValid || isProcessing`. -/
def buttonDisabled (formValid processing : Bool) : Bool :=
  !formValid || processing

/-- The `shippingAddress` sub-record of the payment-link request body. -/
structure ShippingAddress where
  address1 : String
  address2 : String
  city : String
  state : String
  postalCode : String
  country : String
deriving DecidableEq, Repr

/-- The JSON body of the payment-link POST (its exact field set). -/
structure PaymentLinkRequest where
  totalAmount : ℚ
  cartItems : List CartItem
  userName : String
  userEmail : String
  userPhone : String
  shippingAddress : ShippingAddress
deriving DecidableEq, Repr

/-- The `paymentLink` object of the response body, as read by
`res.data.paymentLink.short_url`.  Its `short_url` field is optional:
a 2xx body may carry a `paymentLink` object without it, in which case
the JavaScript property access yields `undefined` rather than
throwing. -/
structure PaymentLink where
  short_url : Option String
deriving DecidableEq, Repr

/-- Outcome of the axios POST.  `resolved body` is a 2xx response
whose `data.paymentLink` is `body`: `none` models a malformed body
lacking the `paymentLink` object, for which the access
`res.data.paymentLink.short_url` throws and lands in the catch branch,
while `some pl` covers a present `paymentLink` whose `short_url` may
itself be absent.  `rejected` covers a network error or a non-2xx
status, both of which axios raises as a rejection. -/
inductive RequestOutcome where
  | resolved (paymentLink : Option PaymentLink)
  | rejected
deriving DecidableEq, Repr

/-- Assignment of the extracted link to `window.location.href`: a
JavaScript `undefined` link is coerced to the string "undefined" and
still navigated to. -/
def hrefString : Option String → String
  | some u => u
  | none => "undefined"

/-- The side-effecting steps `handleSubmit` can take, in order. -/
inductive Action where
  | toastError (title description : String)
  | setAnimateTruck (b : Bool)
  | setIsProcessing (b : Bool)
  | post (url : String) (body : PaymentLinkRequest)
  | wait (ms : ℕ)
  | navigate (url : String)
deriving DecidableEq, Repr

/-- The request path appended to the configured base URL. -/
def paymentLinkUrl (apiUrl : String) : String :=
  apiUrl ++ "/api/payment-link"

/-- The request body built inside `handleSubmit` from the destructured
form fields, the live cart and the computed total. -/
def mkRequestBody (f : FormData) (cart : List CartItem) (total : ℚ) : PaymentLinkRequest :=
  { totalAmount := total
    cartItems := cart
    userName := f.firstName ++ " " ++ f.lastName
    userEmail := f.email
    userPhone := f.phone
    shippingAddress :=
      { address1 := f.address1
        address2 := f.address2
        city := f.city
        state := f.state
        postalCode := f.postalCode
        country := f.country } }

/-- The generic toast description of the catch branch. -/
def failureToastMsg : String :=
  "Failed to generate payment link. Please try again."

/-- `handleSubmit` from `checkOUT1.tsx`, as the ordered trace of the
side-effecting actions it performs for a given request outcome.
If validation fails it stops after the validation toast; otherwise it
starts the truck animation and the processing state, issues the POST,
and when the response carries a `paymentLink` object it waits 1500 ms
then navigates to the extracted link (an absent `short_url` is coerced
to the string "undefined" and navigated to all the same), while on a
rejection or a thrown extraction (body lacking the `paymentLink`
object) it raises the generic toast and stops the animation; the
`finally` block clears the processing state in every branch. -/
def handleSubmit (apiUrl : String) (f : FormData) (cart : List CartItem)
    (total : ℚ) (outcome : RequestOutcome) : List Action :=
  if (validateForm f).ok then
    [Action.setAnimateTruck true, Action.setIsProcessing true,
     Action.post (paymentLinkUrl apiUrl) (mkRequestBody f cart total)] ++
    (match outcome with
     | .resolved (some pl) =>
         [Action.wait 1500, Action.navigate (hrefString pl.short_url),
          Action.setIsProcessing false]
     | .resolved none =>
         [Action.toastError "Error" failureToastMsg,
          Action.setAnimateTruck false, Action.setIsProcessing false]
     | .rejected =>
         [Action.toastError "Error" failureToastMsg,
          Action.setAnimateTruck false, Action.setIsProcessing false])
  else
    match (validateForm f).toastMsg with
    | some msg => [Action.toastError "Error" msg]
    | none => []

/-- Projection selecting the POST actions of a trace. -/
def Action.postData : Action → Option (String × PaymentLinkRequest)
  | .post url body => some (url, body)
  | _ => none

/-- Where the browser currently is: the checkout page, the cart page
(after the empty-cart redirect), or an off-site payment page (after
the full-page navigation to the short URL). -/
inductive Page where
  | checkout
  | cart
  | offsite (url : String)
deriving DecidableEq, Repr

/-- Observable state of the mounted checkout component together with
its environment: current page, form state, the two UI flags, the live
cart snapshot with its subtotal, and the log of payment-link requests
issued so far. -/
structure CompState where
  page : Page
  form : FormData
  isProcessing : Bool
  animateTruck : Bool
  cartItems : List CartItem
  subtotal : ℚ
  requests : List (String × PaymentLinkRequest)
deriving DecidableEq, Repr

/-- Events the component reacts to: an external cart mutation (which
changes the snapshot and the live subtotal), a field input, or a form
submission whose request has a given outcome. -/
inductive Event where
  | cartChange (items : List CartItem) (newSubtotal : ℚ)
  | input (n : FieldName) (v : String)
  | submit (o : RequestOutcome)
deriving DecidableEq, Repr

/-- The reactive empty-cart guard: the `useEffect` watching `subtotal`
navigates to `/cart` whenever the component is on the checkout page
with a zero subtotal. -/
def flushGuard (s : CompState) : CompState :=
  if s.page = Page.checkout ∧ s.subtotal = 0 then { s with page := Page.cart } else s

/-- Event handling of the mounted component.  Input and submission are
only handled while the checkout page is mounted.  A submission (with
`pricing` standing for the external `calculatePricing` policy) runs
`validateForm`, and when it passes, logs the POST; on success the page
is replaced by the off-site payment page, on failure the animation
stops; the `finally` block clears the processing flag either way. -/
def handleEvent (apiUrl : String) (pricing : ℚ → Pricing) (s : CompState) :
    Event → CompState
  | .cartChange items q => { s with cartItems := items, subtotal := q }
  | .input n v =>
      if s.page = Page.checkout then { s with form := setField s.form n v } else s
  | .submit o =>
      if s.page = Page.checkout then
        if (validateForm s.form).ok then
          let url := paymentLinkUrl apiUrl
          let body := mkRequestBody s.form s.cartItems (pricing s.subtotal).total
          match o with
          | .resolved (some pl) =>
              { s with requests := s.requests ++ [(url, body)],
                       page := Page.offsite (hrefString pl.short_url),
                       animateTruck := true, isProcessing := false }
          | _ =>
              { s with requests := s.requests ++ [(url, body)],
                       animateTruck := false, isProcessing := false }
        else s
      else s

/-- One step of the component: React flushes the pending reactive
effects around each event dispatch, so the empty-cart guard fires
before the next event is handled and again after it. -/
def step (apiUrl : String) (pricing : ℚ → Pricing) (s : CompState) (e : Event) :
    CompState :=
  flushGuard (handleEvent apiUrl pricing (flushGuard s) e)

/-- A run of the component from a state through a list of events;
the guard also fires on the initial render. -/
def run (apiUrl : String) (pricing : ℚ → Pricing) (s : CompState)
    (events : List Event) : CompState :=
  events.foldl (step apiUrl pricing) (flushGuard s)

/-- A fully filled concrete form, used as a witness input. -/
def sampleForm : FormData :=
  { email := "a@b.com", firstName := "Jane", lastName := "Roe"
    phone := "1234567890", address1 := "1 Main St", address2 := ""
    city := "Springfield", state := "TS", postalCode := "00001"
    country := "Freedonia" }

/-- A concrete cart with one item, used as a witness input. -/
def sampleCart : List CartItem :=
  [{ id := "p1", name := "Silk", image := "silk.png", price := 100, quantity := 2 }]

/-- A form whose required fields all pass validation while carrying
leading and trailing whitespace, used as a witness input. -/
def paddedForm : FormData :=
  { sampleForm with firstName := " John ", lastName := "Doe " }

theorem isFormValid_iff (f : FormData) :
    isFormValid f = true ↔ ∀ fld ∈ requiredFields, jsTrim (f.get fld) ≠ "" := by
  simp [isFormValid, List.all_eq_true]

theorem validateForm_ok_eq (f : FormData) :
    (validateForm f).ok = isFormValid f := by
  unfold validateForm firstEmptyField
  cases h : requiredFields.find? (fun fld => jsTrim (f.get fld) == "") with
  | none =>
    rw [List.find?_eq_none] at h
    have : isFormValid f = true := by
      rw [isFormValid_iff]
      intro fld hmem
      have := h fld hmem
      simpa using this
    simp [this]
  | some fld =>
    have hp : (jsTrim (f.get fld) == "") = true :=
      List.find?_some (p := fun fld => jsTrim (f.get fld) == "") h
    have hmem : fld ∈ requiredFields := List.mem_of_find?_eq_some h
    have : isFormValid f = false := by
      rw [Bool.eq_false_iff]
      intro hv
      exact (isFormValid_iff f).mp hv fld hmem (by simpa using hp)
    simp [this]

theorem step_preserves_cart (apiUrl : String) (pricing : ℚ → Pricing)
    (s : CompState) (e : Event) (h : s.page = Page.cart) :
    (step apiUrl pricing s e).page = Page.cart ∧
    (step apiUrl pricing s e).requests = s.requests := by
  have h1 : flushGuard s = s := by simp [flushGuard, h]
  cases e <;> simp [step, h1, handleEvent, flushGuard, h]

theorem foldl_preserves_cart (apiUrl : String) (pricing : ℚ → Pricing)
    (events : List Event) :
    ∀ s : CompState, s.page = Page.cart →
      (events.foldl (step apiUrl pricing) s).page = Page.cart ∧
      (events.foldl (step apiUrl pricing) s).requests = s.requests := by
  induction events with
  | nil => exact fun s h => ⟨h, rfl⟩
  | cons e es ih =>
      intro s h
      obtain ⟨hp, hr⟩ := step_preserves_cart apiUrl pricing s e h
      obtain ⟨hp2, hr2⟩ := ih (step apiUrl pricing s e) hp
      exact ⟨by simpa using hp2, by simpa [hr] using hr2⟩

/-- Claim C1: whenever the live subtotal is exactly 0 while the
checkout page is mounted, the reactive guard redirects the user to the
cart page, and no payment-link request is issued from that point on,
whatever events follow — including a submission attempted while the
subtotal is 0 — independent of the payment-handoff state. -/
theorem empty_cart_guard (apiUrl : String) (pricing : ℚ → Pricing)
    (s : CompState) (events : List Event)
    (h0 : s.subtotal = 0) (hc : s.page = Page.checkout) :
    (run apiUrl pricing s events).page = Page.cart ∧
    (run apiUrl pricing s events).requests = s.requests := by
  have hflush : flushGuard s = { s with page := Page.cart } := by
    simp [flushGuard, hc, h0]
  unfold run
  rw [hflush]
  exact foldl_preserves_cart apiUrl pricing events _ rfl

/-- Witness for C1: a mounted checkout state with subtotal 0 and a
valid form, hit by a submission with a successful outcome, ends on the
cart page with no request logged. -/
theorem empty_cart_guard_witness :
    (run "http://api" (calculatePricing (fun _ => 0) (fun _ => 0))
        { page := Page.checkout, form := sampleForm, isProcessing := false,
          animateTruck := false, cartItems := [], subtotal := 0, requests := [] }
        [Event.submit (RequestOutcome.resolved (some ⟨some "https://pay.example/abc"⟩))]).page
      = Page.cart ∧
    (run "http://api" (calculatePricing (fun _ => 0) (fun _ => 0))
        { page := Page.checkout, form := sampleForm, isProcessing := false,
          animateTruck := false, cartItems := [], subtotal := 0, requests := [] }
        [Event.submit (RequestOutcome.resolved (some ⟨some "https://pay.example/abc"⟩))]).requests
      = [] :=
  empty_cart_guard "http://api" (calculatePricing (fun _ => 0) (fun _ => 0))
    { page := Page.checkout, form := sampleForm, isProcessing := false,
      animateTruck := false, cartItems := [], subtotal := 0, requests := [] }
    [Event.submit (RequestOutcome.resolved (some ⟨some "https://pay.example/abc"⟩))]
    rfl rfl

/-- Claim C2: if some required field is empty or whitespace-only after
trimming then validateForm returns false and isFormValid is false; if
every required field is non-empty after trimming then both succeed,
regardless of address2 (which is quantified freely with the rest of
the form). -/
theorem validation_completeness (f : FormData) :
    ((∃ fld ∈ requiredFields, jsTrim (f.get fld) = "") →
        (validateForm f).ok = false ∧ isFormValid f = false) ∧
    ((∀ fld ∈ requiredFields, jsTrim (f.get fld) ≠ "") →
        (validateForm f).ok = true ∧ isFormValid f = true) := by
  constructor
  · rintro ⟨fld, hmem, hempty⟩
    have hv : isFormValid f = false := by
      rw [Bool.eq_false_iff]
      intro h
      exact (isFormValid_iff f).mp h fld hmem hempty
    exact ⟨by rw [validateForm_ok_eq, hv], hv⟩
  · intro h
    have hv : isFormValid f = true := (isFormValid_iff f).mpr h
    exact ⟨by rw [validateForm_ok_eq, hv], hv⟩

/-- Witness for C2: a form with a whitespace-only firstName fails both
checks; the fully filled sample form passes both, even though its
address2 is empty. -/
theorem validation_completeness_witness :
    ((validateForm { sampleForm with firstName := "  " }).ok = false ∧
      isFormValid { sampleForm with firstName := "  " } = false) ∧
    ((validateForm sampleForm).ok = true ∧ isFormValid sampleForm = true) :=
  ⟨(validation_completeness { sampleForm with firstName := "  " }).1
      ⟨FieldName.firstName, by decide, by decide⟩,
   (validation_completeness sampleForm).2 (by decide)⟩

/-- Claim C3: when validation fails, the single toast names the first
required field (in source order) whose trimmed value is empty, with
the identifier humanized by inserting a space before each capital and
lower-casing; in particular firstName is rendered as first name. -/
theorem validation_error_names_first_empty_field (f : FormData) (fld : FieldName)
    (h : firstEmptyField f = some fld) :
    (validateForm f).toastMsg =
      some ("Please fill in the " ++ humanize fld.ident ++ " field.") ∧
    humanize (FieldName.ident FieldName.firstName) = "first name" := by
  refine ⟨?_, by decide⟩
  unfold validateForm
  rw [h]
  rfl

/-- Witness for C3: with email filled and firstName empty, the toast
reads exactly Please fill in the first name field. -/
theorem validation_error_names_first_empty_field_witness :
    (validateForm { sampleForm with firstName := "" }).toastMsg =
      some ("Please fill in the " ++ humanize FieldName.firstName.ident ++ " field.") ∧
    humanize (FieldName.ident FieldName.firstName) = "first name" :=
  validation_error_names_first_empty_field { sampleForm with firstName := "" }
    FieldName.firstName (by decide)

/-- Claim C4: with a valid form and a response carrying a short URL,
the handler performs exactly: start animation, enter processing, POST
the request, wait 1500 ms, navigate to exactly the returned short URL,
clear processing; and the submit control is disabled throughout the
processing state. -/
theorem submission_success_lifecycle (apiUrl : String) (f : FormData)
    (cart : List CartItem) (total : ℚ) (u : String)
    (hv : (validateForm f).ok = true) :
    handleSubmit apiUrl f cart total (RequestOutcome.resolved (some ⟨some u⟩)) =
      [Action.setAnimateTruck true, Action.setIsProcessing true,
       Action.post (paymentLinkUrl apiUrl) (mkRequestBody f cart total),
       Action.wait 1500, Action.navigate u, Action.setIsProcessing false] ∧
    buttonDisabled (isFormValid f) true = true := by
  refine ⟨?_, by simp [buttonDisabled]⟩
  simp [handleSubmit, hv, hrefString]

/-- Witness for C4: the success trace at concrete inputs. -/
theorem submission_success_lifecycle_witness :
    handleSubmit "http://api" sampleForm sampleCart 236
        (RequestOutcome.resolved (some ⟨some "https://pay.example/abc"⟩)) =
      [Action.setAnimateTruck true, Action.setIsProcessing true,
       Action.post (paymentLinkUrl "http://api") (mkRequestBody sampleForm sampleCart 236),
       Action.wait 1500, Action.navigate "https://pay.example/abc",
       Action.setIsProcessing false] ∧
    buttonDisabled (isFormValid sampleForm) true = true :=
  submission_success_lifecycle "http://api" sampleForm sampleCart 236
    "https://pay.example/abc" (by decide)

/-- Claim C5 (amended): with a valid form, a rejected request (network
error or non-2xx status) or a 2xx body lacking the paymentLink object
— the malformed bodies whose link extraction throws — performs
exactly: start animation, enter processing, POST, raise the generic
error toast, stop the animation, clear processing; no navigation
occurs anywhere in the trace, and with processing cleared the valid
form leaves the submit control enabled again.  The original claim over
every malformed response is refuted by the counterexample below: a 2xx
body whose paymentLink is present but lacks short_url is not treated
as an error. -/
theorem submission_failure_lifecycle (apiUrl : String) (f : FormData)
    (cart : List CartItem) (total : ℚ) (o : RequestOutcome)
    (hv : (validateForm f).ok = true)
    (hfail : o = RequestOutcome.rejected ∨ o = RequestOutcome.resolved none) :
    handleSubmit apiUrl f cart total o =
      [Action.setAnimateTruck true, Action.setIsProcessing true,
       Action.post (paymentLinkUrl apiUrl) (mkRequestBody f cart total),
       Action.toastError "Error" failureToastMsg,
       Action.setAnimateTruck false, Action.setIsProcessing false] ∧
    (∀ u, Action.navigate u ∉ handleSubmit apiUrl f cart total o) ∧
    buttonDisabled (isFormValid f) false = false := by
  have hvf : isFormValid f = true := by rw [← validateForm_ok_eq]; exact hv
  rcases hfail with h | h <;> subst h <;>
    exact ⟨by simp [handleSubmit, hv], by simp [handleSubmit, hv],
           by simp [buttonDisabled, hvf]⟩

/-- Witness for C5: the failure trace at concrete inputs, and the
re-enabled submit control. -/
theorem submission_failure_lifecycle_witness :
    handleSubmit "http://api" sampleForm sampleCart 236 RequestOutcome.rejected =
      [Action.setAnimateTruck true, Action.setIsProcessing true,
       Action.post (paymentLinkUrl "http://api") (mkRequestBody sampleForm sampleCart 236),
       Action.toastError "Error" failureToastMsg,
       Action.setAnimateTruck false, Action.setIsProcessing false] ∧
    buttonDisabled (isFormValid sampleForm) false = false :=
  ⟨(submission_failure_lifecycle "http://api" sampleForm sampleCart 236
      RequestOutcome.rejected (by decide) (Or.inl rfl)).1,
   (submission_failure_lifecycle "http://api" sampleForm sampleCart 236
      RequestOutcome.rejected (by decide) (Or.inl rfl)).2.2⟩

/-- Counterexample to C5 as originally stated: for a valid form and a
2xx response whose malformed body carries a paymentLink object without
a short_url, the handler raises no error toast and does not return to
a resubmittable state; it waits the fixed delay and issues a real
navigation, to the coerced string "undefined". -/
theorem submission_failure_lifecycle_counterexample :
    handleSubmit "http://api" sampleForm sampleCart 236
        (RequestOutcome.resolved (some ⟨none⟩)) =
      [Action.setAnimateTruck true, Action.setIsProcessing true,
       Action.post (paymentLinkUrl "http://api") (mkRequestBody sampleForm sampleCart 236),
       Action.wait 1500, Action.navigate "undefined", Action.setIsProcessing false] ∧
    Action.navigate "undefined" ∈
      handleSubmit "http://api" sampleForm sampleCart 236
        (RequestOutcome.resolved (some ⟨none⟩)) := by
  constructor <;> decide

/-- Claim C6: whatever the outcome, a submission with a valid form
issues exactly one POST, to base-url/api/payment-link, whose body has
exactly the shape with totalAmount the computed total, cartItems the
cart snapshot, userName from the first and last name, userEmail and
userPhone from the form, and the six-field shippingAddress record. -/
theorem payment_request_shape (apiUrl : String) (f : FormData)
    (cart : List CartItem) (total : ℚ) (o : RequestOutcome)
    (hv : (validateForm f).ok = true) :
    (handleSubmit apiUrl f cart total o).filterMap Action.postData =
      [(apiUrl ++ "/api/payment-link",
        { totalAmount := total
          cartItems := cart
          userName := f.firstName ++ " " ++ f.lastName
          userEmail := f.email
          userPhone := f.phone
          shippingAddress :=
            { address1 := f.address1, address2 := f.address2, city := f.city,
              state := f.state, postalCode := f.postalCode,
              country := f.country } })] := by
  rcases o with pl | _
  · rcases pl with _ | pl <;>
      simp [handleSubmit, hv, Action.postData, paymentLinkUrl, mkRequestBody]
  · simp [handleSubmit, hv, Action.postData, paymentLinkUrl, mkRequestBody]

/-- Witness for C6: the single POST of a concrete submission. -/
theorem payment_request_shape_witness :
    (handleSubmit "http://api" sampleForm sampleCart 236
        RequestOutcome.rejected).filterMap Action.postData =
      [("http://api" ++ "/api/payment-link", mkRequestBody sampleForm sampleCart 236)] :=
  payment_request_shape "http://api" sampleForm sampleCart 236
    RequestOutcome.rejected (by decide)

/-- Claim C7: for every non-negative subtotal, the pricing breakdown
satisfies total = subtotal + shipping + tax exactly, for any shipping
and tax policy of the external function. -/
theorem pricing_total_identity (sr tr : ℚ → ℚ) (s : ℚ) (_h : 0 ≤ s) :
    (calculatePricing sr tr s).total =
      s + (calculatePricing sr tr s).shipping + (calculatePricing sr tr s).tax := rfl

/-- Witness for C7: the identity at subtotal 5 with a free-shipping
policy and a ten percent tax. -/
theorem pricing_total_identity_witness :
    (calculatePricing (fun _ => 0) (fun q => q / 10) 5).total =
      5 + (calculatePricing (fun _ => 0) (fun q => q / 10) 5).shipping +
        (calculatePricing (fun _ => 0) (fun q => q / 10) 5).tax :=
  pricing_total_identity (fun _ => 0) (fun q => q / 10) 5 (by norm_num)

/-- Claim C8: the shipping summary row renders the literal Free when
the computed shipping is exactly 0, and the currency-formatted amount
otherwise. -/
theorem shipping_free_rendering (formatPrice : ℚ → String) (shipping : ℚ) :
    (shipping = 0 → shippingRowValue formatPrice shipping = "Free") ∧
    (shipping ≠ 0 → shippingRowValue formatPrice shipping = formatPrice shipping) := by
  constructor <;> intro h <;> simp [shippingRowValue, h]

/-- Witness for C8: a zero shipping renders Free and a non-zero one
renders the formatted amount. -/
theorem shipping_free_rendering_witness :
    shippingRowValue (fun _ => "$5.00") 0 = "Free" ∧
    shippingRowValue (fun _ => "$5.00") 5 = "$5.00" :=
  ⟨(shipping_free_rendering (fun _ => "$5.00") 0).1 rfl,
   (shipping_free_rendering (fun _ => "$5.00") 5).2 (by norm_num)⟩

/-- Claim C9: the field-change operation stores exactly the given
value (no normalization or trimming) in the named field and leaves
every other field unchanged. -/
theorem set_field_frame (f : FormData) (n : FieldName) (v : String) :
    (setField f n v).get n = v ∧
    ∀ m : FieldName, m ≠ n → (setField f n v).get m = f.get m := by
  constructor
  · cases n <;> rfl
  · intro m hm
    cases n <;> cases m <;> first | rfl | exact absurd rfl hm

/-- Witness for C9: updating email with a whitespace-padded value
stores it verbatim and leaves city unchanged. -/
theorem set_field_frame_witness :
    (setField sampleForm FieldName.email " x ").get FieldName.email = " x " ∧
    (setField sampleForm FieldName.email " x ").get FieldName.city =
      sampleForm.get FieldName.city :=
  ⟨(set_field_frame sampleForm FieldName.email " x ").1,
   (set_field_frame sampleForm FieldName.email " x ").2 FieldName.city (by decide)⟩

/-- Claim C10: every POST issued by the handler carries the raw,
untrimmed form values: userName is the raw firstName, one space, and
the raw lastName, and the email, phone and address fields are sent
exactly as stored. -/
theorem payment_request_raw_values (apiUrl : String) (f : FormData)
    (cart : List CartItem) (total : ℚ) (o : RequestOutcome)
    (url : String) (body : PaymentLinkRequest)
    (h : Action.post url body ∈ handleSubmit apiUrl f cart total o) :
    body.userName = f.firstName ++ " " ++ f.lastName ∧
    body.userEmail = f.email ∧
    body.userPhone = f.phone ∧
    body.shippingAddress.address1 = f.address1 ∧
    body.shippingAddress.address2 = f.address2 ∧
    body.shippingAddress.city = f.city ∧
    body.shippingAddress.state = f.state ∧
    body.shippingAddress.postalCode = f.postalCode ∧
    body.shippingAddress.country = f.country := by
  by_cases hv : (validateForm f).ok = true
  · have hb : body = mkRequestBody f cart total := by
      rcases o with pl | _
      · rcases pl with _ | pl <;> simp [handleSubmit, hv] at h <;> exact h.2
      · simp [handleSubmit, hv] at h
        exact h.2
    subst hb
    simp [mkRequestBody]
  · rw [Bool.not_eq_true] at hv
    rcases hm : (validateForm f).toastMsg with _ | m <;>
      simp [handleSubmit, hv, hm] at h

/-- Witness for C10: a form that passes validation with padded
firstName and lastName is transmitted exactly as typed. -/
theorem payment_request_raw_values_witness :
    (mkRequestBody paddedForm sampleCart 236).userName =
      paddedForm.firstName ++ " " ++ paddedForm.lastName :=
  (payment_request_raw_values "http://api" paddedForm sampleCart 236
      RequestOutcome.rejected (paymentLinkUrl "http://api")
      (mkRequestBody paddedForm sampleCart 236) (by decide)).1

end CheckoutSpec
